import Mathlib

/-!
Shallow embedding of `examples/densenet_inference_3d_array.py`, a MONAI
example script that runs 3D DenseNet classification inference through an
ignite supervised evaluator.  The script itself is configuration wiring;
framework pieces it calls into (MONAI transforms, the NIfTI dataset, the
handlers, the ignite engine) are not part of the script and are modelled
from the specification where noted.
-/

namespace DensenetInference3D

/-! ### Sample list (source lines 33-47) -/

/-- The fixed list of NIfTI image file paths (`images`, source lines 33-44). -/
def images : List String :=
  ["/workspace/data/medical/ixi/IXI-T1/IXI607-Guys-1097-T1.nii.gz",
   "/workspace/data/medical/ixi/IXI-T1/IXI175-HH-1570-T1.nii.gz",
   "/workspace/data/medical/ixi/IXI-T1/IXI385-HH-2078-T1.nii.gz",
   "/workspace/data/medical/ixi/IXI-T1/IXI344-Guys-0905-T1.nii.gz",
   "/workspace/data/medical/ixi/IXI-T1/IXI409-Guys-0960-T1.nii.gz",
   "/workspace/data/medical/ixi/IXI-T1/IXI584-Guys-1129-T1.nii.gz",
   "/workspace/data/medical/ixi/IXI-T1/IXI253-HH-1694-T1.nii.gz",
   "/workspace/data/medical/ixi/IXI-T1/IXI092-HH-1436-T1.nii.gz",
   "/workspace/data/medical/ixi/IXI-T1/IXI574-IOP-1156-T1.nii.gz",
   "/workspace/data/medical/ixi/IXI-T1/IXI585-Guys-1130-T1.nii.gz"]

/-- The fixed label array (`labels = np.array([0, 0, 1, 0, 1, 0, 1, 0, 1, 0])`,
source lines 45-47). -/
def labels : List Nat := [0, 0, 1, 0, 1, 0, 1, 0, 1, 0]

/-- Modelled from the spec: `NiftiDataset` (monai.data.nifti_reader, not under
src/) pairs the i-th image file with the i-th label by list position, so the
sample list of `val_ds` is the positional zip of `images` and `labels`. -/
def val_ds_samples : List (String × Nat) := images.zip labels

/-! ### Transform chain (source lines 50-54), at the shape level -/

/-- Modelled from the spec: `Rescale` rescales intensities and preserves the
tensor shape (monai.transforms is not under src/). -/
def rescaleShape (s : List Nat) : List Nat := s

/-- Modelled from the spec: `AddChannel` inserts a leading channel dimension
of size 1. -/
def addChannelShape (s : List Nat) : List Nat := 1 :: s

/-- Modelled from the spec: `Resize target` replaces the spatial dimensions
with `target`, keeping the leading channel axis it expects. -/
def resizeShape (target s : List Nat) : List Nat :=
  match s with
  | [] => []
  | c :: _ => c :: target

/-- `transforms.Compose` applies its transforms to a sample in listed order. -/
def composeShapes (ts : List (List Nat → List Nat)) (s : List Nat) : List Nat :=
  ts.foldl (fun acc t => t acc) s

/-- `val_transforms` (source lines 50-54): `Rescale()`, then `AddChannel()`,
then `Resize((96, 96, 96))`, at the shape level. -/
def val_transforms : List Nat → List Nat :=
  composeShapes [rescaleShape, addChannelShape, resizeShape [96, 96, 96]]

/-! ### prepare_batch (source lines 70-71) -/

/-- A raw batch as indexed by the script: `batch[0]` holds the images,
`batch[1]` the labels and `batch[2]` the per-sample metadata. -/
structure RawBatch (α β γ : Type) where
  images : α
  labels : β
  meta : γ

/-- `prepare_batch` (source lines 70-71): forwards `(batch[0], batch[1])`
together with the given `device` and `non_blocking` arguments to ignite's
`_prepare_batch`, which is third-party code abstracted here as the
`underlying` argument. -/
def prepare_batch {α β γ δ ε : Type} (underlying : α × β → δ → Bool → ε)
    (batch : RawBatch α β γ) (device : δ) (non_blocking : Bool) : ε :=
  underlying (batch.images, batch.labels) device non_blocking

/-! ### Network and loader configuration -/

/-- `densenet121(in_channels=1, ...)` (source lines 58-61). -/
def in_channels : Nat := 1

/-- `densenet121(..., out_channels=2)` (source lines 58-61). -/
def out_channels : Nat := 2

/-- The device selector (source line 63): hardcoded to the first accelerator
device, with no CPU fallback coded. -/
def device : String := "cuda:0"

/-- The configuration carried by a torch `DataLoader`. -/
structure DataLoaderConfig where
  batch_size : Nat
  num_workers : Nat
  pin_memory : Bool

/-- `val_loader` (source line 90): `batch_size=2, num_workers=4,
pin_memory=torch.cuda.is_available()`, as a function of CUDA availability. -/
def val_loader_config (cuda_available : Bool) : DataLoaderConfig :=
  { batch_size := 2, num_workers := 4, pin_memory := cuda_available }

/-! ### Saver transforms (source lines 82-83) -/

/-- Index of the first maximal element of a score vector: torch `argmax`
over the class dimension for one sample. -/
def argmaxIdx : List Int → Nat
  | [] => 0
  | [_] => 0
  | x :: y :: rest =>
      if x < (y :: rest).getD (argmaxIdx (y :: rest)) 0 then
        argmaxIdx (y :: rest) + 1
      else 0

/-- The saver's `output_transform` (source line 83):
`lambda output: output[0].argmax(1)`, the per-sample argmax over the class
dimension of the prediction tensor `output[0]`. -/
def output_transform (predictions : List (List Int)) : List Nat :=
  predictions.map argmaxIdx

/-- Modelled from the spec: a `NiftiDataset` sample as the tuple of returned
components (monai.data.nifti_reader is not under src/): with
`image_only=False` the dataset yields the triple `(image, label, meta)`,
whose third component is the per-sample metadata. -/
def niftiGetItem (image_only : Bool) (image label meta : α) : List α :=
  if image_only then [image, label] else [image, label, meta]

/-- Modelled from the spec: default batch collation builds, for each tuple
position of the first sample, the list of that component across the samples
of the batch. -/
def collate (samples : List (List α)) : List (List α) :=
  match samples with
  | [] => []
  | s :: _ => (List.range s.length).map (fun j => samples.filterMap (fun t => t.get? j))

/-- The saver's `batch_transform` (source line 82): `lambda batch: batch[2]`,
as the partial lookup of tuple position 2 of the collated batch. -/
def batch_transform (batch : List α) : Option α := batch.get? 2

/-! ### The evaluator run with attached handlers (source lines 73-93) -/

/-- A raw per-sample record in a batch: image data, integer label and the
metadata string used for output naming. -/
structure RawSample where
  image : List Int
  label : Nat
  meta : String

/-- The checkpoint file content: `load_dict={'net': net}` (source line 87)
restores the network parameters stored under the key `net`. -/
structure Checkpoint where
  net : List Int

/-- `CheckpointLoader(load_path=...)` (source line 87). -/
def checkpoint_path : String := "./runs/net_checkpoint_40.pth"

/-- `ClassificationSaver(output_dir=...)` (source line 82). -/
def output_dir : String := "tempdir"

/-- Engine lifecycle events fired during one evaluator run. -/
inductive EngineEvent where
  | started
  | iteration (batch : List RawSample)
  | completed

/-- The event trace of `evaluator.run` over a sequence of batches: a started
event, one iteration per batch, then a completed event. -/
def runEvents (batches : List (List RawSample)) : List EngineEvent :=
  .started :: (batches.map .iteration ++ [.completed])

/-- The evaluator state threaded through one run: current network
parameters, how many checkpoint loads have happened, how many batches have
been processed, and the records accumulated by the prediction saver. -/
structure EvalState where
  params : List Int
  loads : Nat
  processed : Nat
  saved : List (String × Nat)

/-- Modelled from the spec: one engine event step of the assembled pipeline.
The attached `CheckpointLoader` restores `ckpt.net` into the network
parameters at engine start; each iteration runs inference with the current
parameters (inference only, no parameter mutation) and the attached
`ClassificationSaver` records, per sample of the batch, the sample metadata
(`batch_transform`) together with the argmax class index of the network
output (`output_transform`). -/
def engineStep (net : List Int → List Int → List Int) (ckpt : Checkpoint)
    (st : EvalState) (e : EngineEvent) : EvalState :=
  match e with
  | .started => { st with params := ckpt.net, loads := st.loads + 1 }
  | .iteration batch =>
      { st with
        processed := st.processed + 1,
        saved := st.saved ++
          batch.map (fun s => (s.meta, argmaxIdx (net st.params s.image))) }
  | .completed => st

/-- The initial evaluator state: freshly constructed network parameters
`init`, nothing loaded, processed or saved yet. -/
def initState (init : List Int) : EvalState :=
  { params := init, loads := 0, processed := 0, saved := [] }

/-- `evaluator.run(val_loader)` (source line 92): fold the engine step over
the event trace of the run. -/
def runEvaluator (net : List Int → List Int → List Int) (ckpt : Checkpoint)
    (init : List Int) (batches : List (List RawSample)) : EvalState :=
  (runEvents batches).foldl (engineStep net ckpt) (initState init)

/-- The observable outcome of one script execution: the artifacts written to
`output_dir` by `prediction_saver.finalize()`, the number of batches
processed, and the error the run aborted with, if any. -/
structure ScriptResult where
  written : List (String × Nat)
  processed : Nat
  error : Option String

/-- Modelled from the spec: the whole script run as a function of
accelerator-device availability.  The device selector is hardcoded to
`cuda:0` with no CPU fallback coded, so when the accelerator device is
unavailable the run aborts with an unhandled error before any batch is
processed and nothing is written; otherwise the evaluator runs to completion
and `prediction_saver.finalize()` writes the saved records. -/
def runScript (deviceAvailable : Bool) (net : List Int → List Int → List Int)
    (ckpt : Checkpoint) (init : List Int)
    (batches : List (List RawSample)) : ScriptResult :=
  if deviceAvailable then
    let final := runEvaluator net ckpt init batches
    { written := final.saved, processed := final.processed, error := none }
  else
    { written := [], processed := 0,
      error := some ("device unavailable: " ++ device) }

/-! ### Top-level statement order of the script -/

/-- The top-level statements of the script, in source order. -/
inductive ScriptStep where
  | defineData
  | defineTransforms
  | buildDataset
  | buildNet
  | createEvaluator
  | attachStats
  | attachSaver
  | attachCheckpointLoader
  | buildLoader
  | evaluatorRun
  | saverFinalize
  deriving DecidableEq

/-- The script executes its top-level statements top to bottom
(source lines 33-93). -/
def mainSteps : List ScriptStep :=
  [.defineData, .defineTransforms, .buildDataset, .buildNet, .createEvaluator,
   .attachStats, .attachSaver, .attachCheckpointLoader, .buildLoader,
   .evaluatorRun, .saverFinalize]

/-! ### Helper lemmas -/

/-- The argmax of a nonempty score vector is a valid index into it. -/
theorem argmaxIdx_lt_length : ∀ (l : List Int), l ≠ [] → argmaxIdx l < l.length
  | [], h => absurd rfl h
  | [_], _ => by simp [argmaxIdx]
  | _ :: y :: rest, _ => by
      have ih := argmaxIdx_lt_length (y :: rest) (by simp)
      simp only [argmaxIdx]
      split
      · exact Nat.succ_lt_succ ih
      · simp

/-- `niftiGetItem` with `image_only=False` yields the (image, label, meta)
triple. -/
theorem niftiGetItem_false (a b c : α) : niftiGetItem false a b c = [a, b, c] := rfl

/-- Extracting tuple position 2 across a list of triples yields the third
components. -/
theorem filterMap_third (ts : List (α × α × α)) :
    (ts.map (fun t => [t.1, t.2.1, t.2.2])).filterMap (fun s => s.get? 2) =
      ts.map (fun t => t.2.2) := by
  induction ts with
  | nil => rfl
  | cons t rest ih =>
      simp only [List.map_cons, List.filterMap_cons, List.get?]
      exact congrArg (List.cons t.2.2) ih

/-- Folding the iteration events of a batch sequence: the parameters and the
load count are untouched, the processed count grows by the number of batches
and the saver accumulates one (meta, argmax prediction) record per sample. -/
theorem foldl_iterations (net : List Int → List Int → List Int)
    (ckpt : Checkpoint) :
    ∀ (batches : List (List RawSample)) (st : EvalState),
      (batches.map EngineEvent.iteration).foldl (engineStep net ckpt) st =
        { params := st.params, loads := st.loads,
          processed := st.processed + batches.length,
          saved := st.saved ++ batches.flatten.map
            (fun s => (s.meta, argmaxIdx (net st.params s.image))) } := by
  intro batches
  induction batches with
  | nil => intro st; simp
  | cons b rest ih =>
      intro st
      simp only [List.map_cons, List.foldl_cons, engineStep]
      rw [ih]
      simp only [EvalState.mk.injEq, List.flatten_cons, List.map_append,
        List.append_assoc, List.length_cons, true_and, and_true]
      omega

/-- Evaluating the whole run: the final state after `evaluator.run`. -/
theorem runEvaluator_eq (net : List Int → List Int → List Int)
    (ckpt : Checkpoint) (init : List Int) (batches : List (List RawSample)) :
    runEvaluator net ckpt init batches =
      { params := ckpt.net, loads := 1, processed := batches.length,
        saved := batches.flatten.map
          (fun s => (s.meta, argmaxIdx (net ckpt.net s.image))) } := by
  unfold runEvaluator runEvents
  rw [List.foldl_cons, List.foldl_append, foldl_iterations]
  simp [engineStep, initState]

/-! ### Claim theorems -/

/-- Claim C1: for every batch that is an (image, label, meta) triple,
`prepare_batch` returns exactly what the underlying supervised-evaluation
step produces on the pair (image, label) with the given `device` and
`non_blocking` arguments unchanged, and the result does not depend on the
meta element of the batch. -/
theorem prepare_batch_forwards_image_label {α β γ δ ε : Type}
    (underlying : α × β → δ → Bool → ε) (batch : RawBatch α β γ)
    (dev : δ) (nb : Bool) :
    prepare_batch underlying batch dev nb =
        underlying (batch.images, batch.labels) dev nb ∧
      ∀ m2 : γ, prepare_batch underlying { batch with meta := m2 } dev nb =
        prepare_batch underlying batch dev nb :=
  ⟨rfl, fun _ => rfl⟩

/-- Claim C2: the transform chain is composed in the fixed order rescale,
then add a leading channel dimension, then resize to 96x96x96, and on every
3D input volume shape it yields an output of shape (1, 96, 96, 96). -/
theorem val_transforms_output_shape (d1 d2 d3 : Nat) :
    val_transforms =
        composeShapes [rescaleShape, addChannelShape, resizeShape [96, 96, 96]] ∧
      val_transforms [d1, d2, d3] = [1, 96, 96, 96] :=
  ⟨rfl, rfl⟩

/-- Claim C3: the sample list has exactly 10 entries, the labels are
[0,0,1,0,1,0,1,0,1,0], and for every index i below 10 the dataset pairs the
i-th image file path with the i-th label. -/
theorem val_ds_pairing :
    images.length = 10 ∧ labels.length = 10 ∧
      labels = [0, 0, 1, 0, 1, 0, 1, 0, 1, 0] ∧
      ∀ i, i < 10 →
        val_ds_samples.getD i ("", 0) = (images.getD i "", labels.getD i 0) := by
  refine ⟨rfl, rfl, rfl, ?_⟩
  decide

/-- Witness for C3 at index 2: the third sample pairs the third file path
with label 1. -/
theorem val_ds_pairing_witness :
    val_ds_samples.getD 2 ("", 0) =
      ("/workspace/data/medical/ixi/IXI-T1/IXI385-HH-2078-T1.nii.gz", 1) :=
  (val_ds_pairing.2.2.2 2 (by decide)).trans rfl

/-- Claim C4: when the evaluation runs to completion, the prediction saver
has recorded exactly one artifact per input sample for the output directory
`tempdir`, each named by that sample's metadata (the third item of its raw
batch), in dataset order. -/
theorem one_artifact_per_sample (net : List Int → List Int → List Int)
    (ckpt : Checkpoint) (init : List Int) (batches : List (List RawSample)) :
    output_dir = "tempdir" ∧
      (runEvaluator net ckpt init batches).saved.length =
        batches.flatten.length ∧
      (runEvaluator net ckpt init batches).saved.map Prod.fst =
        batches.flatten.map RawSample.meta := by
  refine ⟨rfl, ?_, ?_⟩ <;> rw [runEvaluator_eq]
  · rw [List.length_map]
  · rw [List.map_map]
    exact List.map_congr_left fun s _ => rfl

/-- Claim C5: model parameters are loaded exactly once, from the checkpoint
path `./runs/net_checkpoint_40.pth` under the key `net`, and the loaded
parameters are not mutated during the evaluation run: the final parameters
are still exactly the checkpoint's. -/
theorem checkpoint_loaded_once (net : List Int → List Int → List Int)
    (ckpt : Checkpoint) (init : List Int) (batches : List (List RawSample)) :
    checkpoint_path = "./runs/net_checkpoint_40.pth" ∧
      (runEvaluator net ckpt init batches).loads = 1 ∧
      (runEvaluator net ckpt init batches).params = ckpt.net := by
  refine ⟨rfl, ?_, ?_⟩ <;> rw [runEvaluator_eq]

/-- Claim C6: the device selector is the first accelerator device, and if it
is unavailable the run fails with an error before any batch is processed, so
no output artifact is written. -/
theorem unavailable_device_no_partial_writes
    (net : List Int → List Int → List Int) (ckpt : Checkpoint)
    (init : List Int) (batches : List (List RawSample)) :
    device = "cuda:0" ∧
      (runScript false net ckpt init batches).error.isSome = true ∧
      (runScript false net ckpt init batches).processed = 0 ∧
      (runScript false net ckpt init batches).written = [] :=
  ⟨rfl, rfl, rfl, rfl⟩

/-- Claim C7: the data loader is configured with batch size 2 and 4 parallel
workers, and pinned-memory staging is enabled exactly when an accelerator
device is available. -/
theorem val_loader_configuration (cuda_available : Bool) :
    (val_loader_config cuda_available).batch_size = 2 ∧
      (val_loader_config cuda_available).num_workers = 4 ∧
      ((val_loader_config cuda_available).pin_memory = true ↔
        cuda_available = true) :=
  ⟨rfl, rfl, Iff.rfl⟩

/-- Claim C8: with `image_only=False` every dataset sample is a triple whose
third element is the metadata, so the saver's batch accessor (tuple position
2 of the collated batch) is well-defined on every nonempty batch and yields
exactly the per-sample metadata. -/
theorem batch_accessor_well_defined (α : Type) (ts : List (α × α × α))
    (h : ts ≠ []) :
    (∀ t ∈ ts, (niftiGetItem false t.1 t.2.1 t.2.2).length = 3 ∧
        (niftiGetItem false t.1 t.2.1 t.2.2).get? 2 = some t.2.2) ∧
      batch_transform
          (collate (ts.map (fun t => niftiGetItem false t.1 t.2.1 t.2.2))) =
        some (ts.map (fun t => t.2.2)) := by
  refine ⟨fun t _ => ⟨rfl, rfl⟩, ?_⟩
  obtain ⟨t, rest, rfl⟩ := List.exists_cons_of_ne_nil h
  simp only [niftiGetItem_false, List.map_cons, collate, List.length_cons,
    List.length_nil, batch_transform]
  rw [List.get?_map, List.get?_range (by norm_num)]
  exact congrArg some (filterMap_third (t :: rest))

/-- Witness for C8 on a concrete two-sample batch of integer triples. -/
theorem batch_accessor_well_defined_witness :
    (∀ t ∈ ([(1, 2, 3), (4, 5, 6)] : List (Int × Int × Int)),
        (niftiGetItem false t.1 t.2.1 t.2.2).length = 3 ∧
        (niftiGetItem false t.1 t.2.1 t.2.2).get? 2 = some t.2.2) ∧
      batch_transform
          (collate (([(1, 2, 3), (4, 5, 6)] : List (Int × Int × Int)).map
            (fun t => niftiGetItem false t.1 t.2.1 t.2.2))) =
        some (([(1, 2, 3), (4, 5, 6)] : List (Int × Int × Int)).map
          (fun t => t.2.2)) :=
  batch_accessor_well_defined Int [(1, 2, 3), (4, 5, 6)] (by decide)

/-- Claim C9: the saver persists per sample exactly the argmax over the
class dimension of the model output, and since the network has
`out_channels = 2` every persisted prediction is the class index 0 or 1;
score vectors themselves are never persisted. -/
theorem saved_predictions_are_binary (predictions : List (List Int))
    (h : ∀ s ∈ predictions, s.length = out_channels) :
    output_transform predictions = predictions.map argmaxIdx ∧
      ∀ p ∈ output_transform predictions, p = 0 ∨ p = 1 := by
  refine ⟨rfl, ?_⟩
  intro p hp
  simp only [output_transform, List.mem_map] at hp
  obtain ⟨s, hs, rfl⟩ := hp
  have hlen := h s hs
  have hne : s ≠ [] := by
    intro he
    rw [he] at hlen
    simp [out_channels] at hlen
  have hlt := argmaxIdx_lt_length s hne
  rw [hlen] at hlt
  simp only [out_channels] at hlt
  omega

/-- Witness for C9 on a concrete two-sample prediction tensor with two
classes per sample. -/
theorem saved_predictions_are_binary_witness :
    output_transform [[3, 5], [7, 2]] = [[3, 5], [7, 2]].map argmaxIdx ∧
      ((1 : Nat) = 0 ∨ (1 : Nat) = 1) :=
  ⟨(saved_predictions_are_binary [[3, 5], [7, 2]] (by decide)).1,
   (saved_predictions_are_binary [[3, 5], [7, 2]] (by decide)).2 1 (by decide)⟩

/-- Claim C10: in the script's top-level statement order, `evaluator.run`
and `prediction_saver.finalize` each occur exactly once and the run precedes
finalization, so output finalization never runs before the full evaluation
pass has completed. -/
theorem finalize_after_run :
    mainSteps.count .evaluatorRun = 1 ∧
      mainSteps.count .saverFinalize = 1 ∧
      mainSteps.indexOf .evaluatorRun < mainSteps.indexOf .saverFinalize := by
  decide

end DensenetInference3D
